import Mathlib

/-!
Shallow embedding of the webhook event-processing pipeline of the
dodo_payments_boilerplate repository.

Sources embedded here:
- src/webhooks/handler.ts : verifyWebhookSignature, handleWebhook and the
  subscription/refund/dispute/license event handlers;
- src/db/client.ts : getCustomerByDodoId, saveSubscription, updateSubscription,
  logPaymentEvent, markEventProcessed, savePaymentEvent, updatePaymentStatus;
- src/payments/payment-handlers.ts (concatenated in services/dodo-payments.ts):
  handlePaymentSuccess, handlePaymentFailure, handlePaymentStatusUpdate,
  processPaymentWebhook;
- supabase/schema.sql : the UNIQUE and NOT NULL constraints that make the
  insert/update operations fail.

External collaborators (Node crypto HMAC, JSON.parse, the provider REST API)
are passed in as function parameters; everything that the repository itself
implements is translated directly from the source.
-/

namespace Dodo

/-! ## Hex encoding and decoding, Node Buffer semantics

Models of the platform primitives used by verifyWebhookSignature:
Buffer.from(s, "hex") decodes pairs of hex digits and silently stops at the
first character that is not a hex digit (or at a trailing lone digit); it
never throws.  crypto.timingSafeEqual throws a RangeError when the two
buffers have different lengths, otherwise compares them byte for byte. -/

def hexVal (c : Char) : Option Nat :=
  if '0' ≤ c ∧ c ≤ '9' then some (c.toNat - 48)
  else if 'a' ≤ c ∧ c ≤ 'f' then some (c.toNat - 87)
  else if 'A' ≤ c ∧ c ≤ 'F' then some (c.toNat - 55)
  else none

def hexDigitChar (n : Nat) : Char :=
  if n < 10 then Char.ofNat (48 + n) else Char.ofNat (87 + n)

def hexEncodeByte (b : Nat) : List Char :=
  [hexDigitChar (b / 16), hexDigitChar (b % 16)]

/-- Model of digest("hex"): lowercase hex encoding of a byte list. -/
def hexEncode (bs : List Nat) : List Char :=
  (bs.map hexEncodeByte).flatten

/-- Model of Buffer.from(s, "hex"): decode hex pairs, stop silently at the
first invalid character or lone trailing digit. -/
def hexDecode : List Char → List Nat
  | c1 :: c2 :: rest =>
    match hexVal c1, hexVal c2 with
    | some hi, some lo => (16 * hi + lo) :: hexDecode rest
    | _, _ => []
  | _ => []

/-- Model of crypto.timingSafeEqual: none models the RangeError thrown on a
length mismatch, otherwise the byte-for-byte comparison result. -/
def timingSafeEqual (a b : List Nat) : Option Bool :=
  if a.length = b.length then some (a == b) else none

def listStartsWith : List Char → List Char → Bool
  | _, [] => true
  | [], _ :: _ => false
  | c :: cs, p :: ps => c == p && listStartsWith cs ps

/-- Model of the JavaScript s.replace(pat, "") with a string pattern: remove
the first occurrence of pat, leave everything else untouched. -/
def replaceFirst (pat : List Char) : List Char → List Char
  | [] => []
  | c :: cs =>
    if listStartsWith (c :: cs) pat then (c :: cs).drop pat.length
    else c :: replaceFirst pat cs

def sha256Marker : List Char := "sha256=".data

/-- Translation of verifyWebhookSignature (src/webhooks/handler.ts, lines
13-33).  The HMAC-SHA256 primitive is a parameter producing the digest byte
list; the webhook secret is the value of config.dodo.webhookSecret.  The
try/catch around the buffer construction and timingSafeEqual is modelled by
mapping the length-mismatch throw (none) to false. -/
def verifyWebhookSignature (hmac : String → String → List Nat)
    (webhookSecret : Option String) (payload signature : String) : Bool :=
  match webhookSecret with
  | none => true
  | some secret =>
    let expectedSignature := hexEncode (hmac secret payload)
    match timingSafeEqual (hexDecode (replaceFirst sha256Marker signature.data))
        (hexDecode expectedSignature) with
    | some b => b
    | none => false

/-! ## JavaScript truthiness helpers

The handler code leans on JavaScript `||` chains and truthiness tests over
possibly-undefined string fields; an absent field (none) and the empty
string are both falsy. -/

def strTruthy : Option String → Bool
  | some s => !(s == "")
  | none => false

/-- Model of `a || b` over two possibly-undefined strings. -/
def jsStrOr (x y : Option String) : Option String :=
  if strTruthy x then x else y

/-- Model of `a || "d"` with a string literal default. -/
def jsStrOrD (x : Option String) (d : String) : String :=
  match x with
  | some s => if s == "" then d else s
  | none => d

/-! ## Data model

Record shapes follow supabase/schema.sql; the event envelope follows the
fields the handlers actually read from the parsed JSON body.  Optional
fields model JavaScript `undefined`. -/

abbrev Metadata := List (String × String)

structure Customer where
  id : String
  user_id : String
  dodo_customer_id : String
  deriving DecidableEq

structure SubscriptionRecord where
  user_id : String
  customer_id : String
  dodo_subscription_id : String
  product_id : String
  price_id : String
  status : String
  current_period_start : Nat
  current_period_end : Nat
  cancel_at_period_end : Bool
  metadata : Metadata
  deriving DecidableEq

structure PaymentRecord where
  dodo_payment_id : String
  customer_id : Option String
  dodo_customer_id : Option String
  amount : Nat
  currency : String
  status : String
  metadata : Metadata
  deriving DecidableEq

/-- Fields of event.data.object that the webhook handlers read; a none field
models a key that is absent from the received JSON. -/
structure DataObject where
  id : Option String
  payment_id : Option String
  customer : Option String
  customer_id : Option String
  product : Option String
  price : Option String
  status : Option String
  current_period_start : Option Nat
  current_period_end : Option Nat
  cancel_at_period_end : Option Bool
  amount : Option Nat
  currency : Option String
  failure_reason : Option String
  metadata : Option Metadata
  deriving DecidableEq

structure EventBody where
  object : DataObject
  deriving DecidableEq

/-- The provider event envelope: the result of JSON.parse on the raw body. -/
structure Event where
  id : Option String
  type : String
  data : EventBody
  deriving DecidableEq

/-- Contents of the event_data column of a payment_events row: either the raw
envelope stored by logPaymentEvent or the audit object built by
savePaymentEvent. -/
inductive StoredEventData where
  | raw (e : Event)
  | audit (payment_id : Option String) (status : String) (amount : Nat)
      (currency : String) (customer_id : Option String)
      (dodo_customer_id : Option String) (failure_reason : Option String)
      (metadata : Metadata)
  deriving DecidableEq

structure EventLogRecord where
  id : Nat
  event_type : String
  event_data : StoredEventData
  dodo_event_id : Option String
  processed : Bool
  processed_at : Option Nat
  error_message : Option String
  retry_count : Nat
  deriving DecidableEq

/-- The relational state: one list per table, a fresh-id counter for inserted
payment_events rows, and the current clock used for processed_at stamps. -/
structure DB where
  customers : List Customer
  subscriptions : List SubscriptionRecord
  payment_events : List EventLogRecord
  payments : List PaymentRecord
  nextId : Nat
  now : Nat
  deriving DecidableEq

/-! ## Database operations (src/db/client.ts) -/

/-- Translation of getCustomerByDodoId (db/client.ts, lines 103-114): a
single-row select tolerant of not-found (PGRST116); an undefined key matches
no row. -/
def getCustomerByDodoId (dodoCustomerId : Option String) (db : DB) :
    Option Customer :=
  db.customers.find? (fun c => some c.dodo_customer_id == dodoCustomerId)

structure SubscriptionInsert where
  user_id : String
  customer_id : String
  dodo_subscription_id : Option String
  product_id : String
  price_id : String
  status : String
  current_period_start : Nat
  current_period_end : Nat
  cancel_at_period_end : Bool
  metadata : Metadata

/-- Translation of saveSubscription (db/client.ts, lines 50-70): a bare
insert into subscriptions.  The error cases come from schema.sql:
dodo_subscription_id is UNIQUE NOT NULL, so inserting a second row with the
same provider subscription id (or a null one) throws. -/
def saveSubscription (s : SubscriptionInsert) (db : DB) : Except String DB :=
  match s.dodo_subscription_id with
  | none => .error "Failed to save subscription: null value in column dodo_subscription_id violates not-null constraint"
  | some sid =>
    if db.subscriptions.any (fun r => r.dodo_subscription_id == sid) then
      .error "Failed to save subscription: duplicate key value violates unique constraint"
    else
      let row : SubscriptionRecord :=
        { user_id := s.user_id, customer_id := s.customer_id,
          dodo_subscription_id := sid, product_id := s.product_id,
          price_id := s.price_id, status := s.status,
          current_period_start := s.current_period_start,
          current_period_end := s.current_period_end,
          cancel_at_period_end := s.cancel_at_period_end,
          metadata := s.metadata }
      .ok { db with subscriptions := db.subscriptions ++ [row] }

/-- Partial update object passed to updateSubscription; a none field models a
key that is absent (or undefined) in the JavaScript updates object and is
therefore not written. -/
structure SubscriptionUpdates where
  status : Option String
  current_period_start : Option Nat
  current_period_end : Option Nat
  cancel_at_period_end : Option Bool
  metadata : Option Metadata

def applySubscriptionUpdates (u : SubscriptionUpdates)
    (r : SubscriptionRecord) : SubscriptionRecord :=
  { r with
    status := u.status.getD r.status,
    current_period_start := u.current_period_start.getD r.current_period_start,
    current_period_end := u.current_period_end.getD r.current_period_end,
    cancel_at_period_end := u.cancel_at_period_end.getD r.cancel_at_period_end,
    metadata := u.metadata.getD r.metadata }

/-- Translation of updateSubscription (db/client.ts, lines 72-88): update by
dodo_subscription_id followed by .single(), which errors when no row
matches; the code throws on any error. -/
def updateSubscription (dodoSubscriptionId : Option String)
    (u : SubscriptionUpdates) (db : DB) : Except String DB :=
  if db.subscriptions.any
      (fun r => some r.dodo_subscription_id == dodoSubscriptionId) then
    let rows := db.subscriptions.map
      (fun r => if some r.dodo_subscription_id == dodoSubscriptionId then
        applySubscriptionUpdates u r else r)
    .ok { db with subscriptions := rows }
  else
    .error "Failed to update subscription: JSON object requested, multiple (or no) rows returned"

structure LogEventInput where
  event_type : String
  event_data : Event
  dodo_event_id : Option String

/-- Translation of logPaymentEvent (db/client.ts, lines 116-135): insert the
raw event into payment_events with processed=false and retry_count=0, and
return the created row. -/
def logPaymentEvent (x : LogEventInput) (db : DB) : EventLogRecord × DB :=
  let r : EventLogRecord :=
    { id := db.nextId, event_type := x.event_type,
      event_data := .raw x.event_data, dodo_event_id := x.dodo_event_id,
      processed := false, processed_at := none, error_message := none,
      retry_count := 0 }
  let db1 : DB :=
    { db with payment_events := db.payment_events ++ [r],
              nextId := db.nextId + 1 }
  (r, db1)

/-- Translation of markEventProcessed (db/client.ts, lines 137-150): set
processed=true and processed_at=now on the row with the given id; .single()
errors when no row matches. -/
def markEventProcessed (eventId : Nat) (db : DB) : Except String DB :=
  if db.payment_events.any (fun r => r.id == eventId) then
    let rows := db.payment_events.map
      (fun r => if r.id == eventId then
        { r with processed := true, processed_at := some db.now } else r)
    .ok { db with payment_events := rows }
  else
    .error "Failed to mark event as processed: JSON object requested, multiple (or no) rows returned"

structure PaymentEventInput where
  payment_id : Option String
  event_type : String
  status : String
  amount : Nat
  currency : String
  customer_id : Option String
  dodo_customer_id : Option String
  failure_reason : Option String
  metadata : Metadata
  processed_at : Nat

/-- Translation of savePaymentEvent (db/client.ts, lines 153-188): insert an
audit row into payment_events with processed=true, using the payment id as
the dodo_event_id. -/
def savePaymentEvent (x : PaymentEventInput) (db : DB) : DB :=
  let r : EventLogRecord :=
    { id := db.nextId, event_type := x.event_type,
      event_data := .audit x.payment_id x.status x.amount x.currency
        x.customer_id x.dodo_customer_id x.failure_reason x.metadata,
      dodo_event_id := x.payment_id, processed := true,
      processed_at := some x.processed_at, error_message := none,
      retry_count := 0 }
  { db with payment_events := db.payment_events ++ [r],
            nextId := db.nextId + 1 }

/-- Translation of updatePaymentStatus (db/client.ts, lines 190-234): update
the payment with the given provider id when it exists, otherwise insert a
minimal record (amount 0, currency USD).  An undefined payment id matches no
row and then violates the NOT NULL constraint of dodo_payment_id on the
insert branch. -/
def updatePaymentStatus (paymentId : Option String) (status : String)
    (db : DB) : Except String DB :=
  if db.payments.any (fun p => some p.dodo_payment_id == paymentId) then
    let rows := db.payments.map
      (fun p => if some p.dodo_payment_id == paymentId then
        { p with status := status } else p)
    .ok { db with payments := rows }
  else
    match paymentId with
    | some pid =>
      let row : PaymentRecord :=
        { dodo_payment_id := pid, customer_id := none,
          dodo_customer_id := none, amount := 0, currency := "USD",
          status := status, metadata := [] }
      .ok { db with payments := db.payments ++ [row] }
    | none => .error "Failed to create payment record: null value in column dodo_payment_id violates not-null constraint"

/-! ## Payment handlers (src/payments/payment-handlers.ts) -/

/-- Shape of the provider API payment resource as the handlers read it:
total_amount, currency, metadata, and customer.customer_id flattened into
customer_id (the handlers only ever read that one nested field, through
optional chaining). -/
structure PaymentDetails where
  total_amount : Nat
  currency : Option String
  customer_id : Option String
  metadata : Option Metadata

/-- The eventData object built at the top of processPaymentWebhook. -/
structure PaymentEventData where
  payment_id : Option String
  status : Option String
  amount : Option Nat
  currency : Option String
  customer_id : Option String
  failure_reason : Option String
  metadata : Metadata

/-- Model of `paymentDetails.total_amount || eventData.amount || 0` where 0
is falsy in JavaScript. -/
def jsNumOr (x : Option Nat) (y : Nat) : Nat :=
  match x with
  | some n => if n == 0 then y else n
  | none => y

/-- Translation of handlePaymentSuccess (payment-handlers.ts appended at
services/dodo-payments.ts lines 275-313).  The enrichment call gpd models
getPaymentDetails; its failure is rethrown by the outer catch and so
propagates.  handlePostPaymentActions mutates nothing persistent and is
omitted. -/
def handlePaymentSuccess (gpd : Option String → Except String PaymentDetails)
    (eventData : PaymentEventData) (db : DB) : Except String DB :=
  match gpd eventData.payment_id with
  | .error e => .error e
  | .ok paymentDetails =>
    let customer : Option Customer :=
      if strTruthy paymentDetails.customer_id then
        getCustomerByDodoId paymentDetails.customer_id db
      else none
    match updatePaymentStatus eventData.payment_id "succeeded" db with
    | .error e => .error e
    | .ok db1 =>
      .ok (savePaymentEvent
        { payment_id := eventData.payment_id,
          event_type := "payment.succeeded", status := "succeeded",
          amount := paymentDetails.total_amount,
          currency := jsStrOrD paymentDetails.currency "USD",
          customer_id := customer.map (·.id),
          dodo_customer_id := paymentDetails.customer_id,
          failure_reason := none,
          metadata := paymentDetails.metadata.getD [],
          processed_at := db1.now } db1)

/-- Translation of handlePaymentFailure (services/dodo-payments.ts lines
319-364).  The enrichment call is wrapped in its own try/catch: its failure
is swallowed and processing continues with only event-supplied data. -/
def handlePaymentFailure (gpd : Option String → Except String PaymentDetails)
    (eventData : PaymentEventData) (db : DB) : Except String DB :=
  let paymentDetails : Option PaymentDetails :=
    match gpd eventData.payment_id with
    | .ok d => some d
    | .error _ => none
  let customerId : Option String :=
    jsStrOr (paymentDetails.bind (·.customer_id)) eventData.customer_id
  let customer : Option Customer :=
    if strTruthy customerId then getCustomerByDodoId customerId db else none
  match updatePaymentStatus eventData.payment_id "failed" db with
  | .error e => .error e
  | .ok db1 =>
    .ok (savePaymentEvent
      { payment_id := eventData.payment_id,
        event_type := "payment.failed", status := "failed",
        amount := jsNumOr (paymentDetails.map (·.total_amount))
          (jsNumOr eventData.amount 0),
        currency := jsStrOrD (paymentDetails.bind (·.currency))
          (jsStrOrD eventData.currency "USD"),
        customer_id := customer.map (·.id),
        dodo_customer_id := if strTruthy customerId then customerId else none,
        failure_reason := some (jsStrOrD eventData.failure_reason "Unknown error"),
        metadata := (paymentDetails.bind (·.metadata)).getD eventData.metadata,
        processed_at := db1.now } db1)

/-- Translation of handlePaymentStatusUpdate (services/dodo-payments.ts lines
369-395); both callers set eventData.status before the call. -/
def handlePaymentStatusUpdate (eventData : PaymentEventData) (db : DB) :
    Except String DB :=
  let status := eventData.status.getD ""
  match updatePaymentStatus eventData.payment_id status db with
  | .error e => .error e
  | .ok db1 =>
    .ok (savePaymentEvent
      { payment_id := eventData.payment_id,
        event_type := "payment." ++ status, status := status,
        amount := eventData.amount.getD 0,
        currency := jsStrOrD eventData.currency "USD",
        customer_id := none,
        dodo_customer_id :=
          if strTruthy eventData.customer_id then eventData.customer_id
          else none,
        failure_reason := none, metadata := eventData.metadata,
        processed_at := db1.now } db1)

/-- Translation of processPaymentWebhook (services/dodo-payments.ts lines
465-525): build eventData from event.data.object and route by type; the
default branch still writes an audit row with status unknown. -/
def processPaymentWebhook
    (gpd : Option String → Except String PaymentDetails) (e : Event)
    (db : DB) : Except String DB :=
  let paymentData := e.data.object
  let eventData : PaymentEventData :=
    { payment_id := jsStrOr paymentData.payment_id paymentData.id,
      status := paymentData.status,
      amount := paymentData.amount,
      currency := paymentData.currency,
      customer_id := paymentData.customer_id,
      failure_reason := paymentData.failure_reason,
      metadata := paymentData.metadata.getD [] }
  if e.type = "payment.succeeded" ∨ e.type = "payment.completed" then
    handlePaymentSuccess gpd eventData db
  else if e.type = "payment.failed" ∨ e.type = "payment.declined" then
    handlePaymentFailure gpd eventData db
  else if e.type = "payment.pending" then
    handlePaymentStatusUpdate { eventData with status := some "pending" } db
  else if e.type = "payment.cancelled" then
    handlePaymentStatusUpdate { eventData with status := some "cancelled" } db
  else
    .ok (savePaymentEvent
      { payment_id := eventData.payment_id, event_type := e.type,
        status := jsStrOrD eventData.status "unknown",
        amount := eventData.amount.getD 0,
        currency := jsStrOrD eventData.currency "USD",
        customer_id := none,
        dodo_customer_id :=
          if strTruthy eventData.customer_id then eventData.customer_id
          else none,
        failure_reason := none, metadata := eventData.metadata,
        processed_at := db.now } db)

/-! ## Subscription handlers (src/webhooks/handler.ts, lines 160-250) -/

/-- Model of `new Date(sec * 1000).toISOString()` applied to an epoch-second
field of the event: a missing field gives an invalid date whose toISOString
throws, otherwise the timestamp in milliseconds. -/
def toISOms : Option Nat → Except String Nat
  | some sec => .ok (sec * 1000)
  | none => .error "Invalid time value"

/-- Translation of handleSubscriptionActive (handler.ts lines 160-192): the
whole body sits in a try/catch, so a lookup miss yields a message and any
thrown error (period conversion, insert failure) is converted into the
message Error processing subscription activation; the state is only mutated
by a successful saveSubscription. -/
def handleSubscriptionActive (e : Event) (db : DB) :
    Except String (Option String) × DB :=
  let subscription := e.data.object
  match getCustomerByDodoId subscription.customer db with
  | none => (.ok (some "Customer not found"), db)
  | some customer =>
    match toISOms subscription.current_period_start,
        toISOms subscription.current_period_end with
    | .ok ps, .ok pe =>
      match saveSubscription
          { user_id := customer.user_id, customer_id := customer.id,
            dodo_subscription_id := subscription.id,
            product_id := subscription.product.getD "",
            price_id := subscription.price.getD "",
            status := "active", current_period_start := ps,
            current_period_end := pe,
            cancel_at_period_end := subscription.cancel_at_period_end.getD false,
            metadata := subscription.metadata.getD [] } db with
      | .ok db1 => (.ok (some "Subscription activated and saved"), db1)
      | .error _ => (.ok (some "Error processing subscription activation"), db)
    | _, _ => (.ok (some "Error processing subscription activation"), db)

/-- Translation of handleSubscriptionOnHold (handler.ts lines 194-200); the
update error is not caught and propagates. -/
def handleSubscriptionOnHold (e : Event) (db : DB) :
    Except String (Option String) × DB :=
  let subscription := e.data.object
  match updateSubscription subscription.id
      { status := some "on_hold", current_period_start := none,
        current_period_end := none, cancel_at_period_end := none,
        metadata := none } db with
  | .ok db1 => (.ok (some "Subscription marked as on hold"), db1)
  | .error m => (.error m, db)

/-- Translation of handleSubscriptionRenewed (handler.ts lines 202-212). -/
def handleSubscriptionRenewed (e : Event) (db : DB) :
    Except String (Option String) × DB :=
  let subscription := e.data.object
  match toISOms subscription.current_period_start,
      toISOms subscription.current_period_end with
  | .ok ps, .ok pe =>
    match updateSubscription subscription.id
        { status := some "active", current_period_start := some ps,
          current_period_end := some pe, cancel_at_period_end := none,
          metadata := none } db with
    | .ok db1 => (.ok (some "Subscription renewal recorded"), db1)
    | .error m => (.error m, db)
  | .error m, _ => (.error m, db)
  | _, .error m => (.error m, db)

/-- Translation of handleSubscriptionPlanChanged (handler.ts lines 214-223):
the status written is whatever the event carries (an absent status leaves
the field out of the update object). -/
def handleSubscriptionPlanChanged (e : Event) (db : DB) :
    Except String (Option String) × DB :=
  let subscription := e.data.object
  match updateSubscription subscription.id
      { status := subscription.status, current_period_start := none,
        current_period_end := none, cancel_at_period_end := none,
        metadata := some (subscription.metadata.getD []) } db with
  | .ok db1 => (.ok (some "Subscription plan change recorded"), db1)
  | .error m => (.error m, db)

/-- Translation of handleSubscriptionCancelled (handler.ts lines 225-234). -/
def handleSubscriptionCancelled (e : Event) (db : DB) :
    Except String (Option String) × DB :=
  let subscription := e.data.object
  match updateSubscription subscription.id
      { status := some "cancelled", current_period_start := none,
        current_period_end := none, cancel_at_period_end := some true,
        metadata := none } db with
  | .ok db1 => (.ok (some "Subscription cancellation recorded"), db1)
  | .error m => (.error m, db)

/-- Translation of handleSubscriptionFailed (handler.ts lines 236-242). -/
def handleSubscriptionFailed (e : Event) (db : DB) :
    Except String (Option String) × DB :=
  let subscription := e.data.object
  match updateSubscription subscription.id
      { status := some "failed", current_period_start := none,
        current_period_end := none, cancel_at_period_end := none,
        metadata := none } db with
  | .ok db1 => (.ok (some "Subscription failure recorded"), db1)
  | .error m => (.error m, db)

/-- Translation of handleSubscriptionExpired (handler.ts lines 244-250). -/
def handleSubscriptionExpired (e : Event) (db : DB) :
    Except String (Option String) × DB :=
  let subscription := e.data.object
  match updateSubscription subscription.id
      { status := some "expired", current_period_start := none,
        current_period_end := none, cancel_at_period_end := none,
        metadata := none } db with
  | .ok db1 => (.ok (some "Subscription expiration recorded"), db1)
  | .error m => (.error m, db)

/-! ## Dispatch and the main entrypoint (src/webhooks/handler.ts) -/

def paymentTypes : List String :=
  ["payment.succeeded", "payment.completed", "payment.failed",
   "payment.declined", "payment.processing", "payment.pending",
   "payment.cancelled"]

def subscriptionTypes : List String :=
  ["subscription.active", "subscription.on_hold", "subscription.renewed",
   "subscription.plan_changed", "subscription.cancelled",
   "subscription.failed", "subscription.expired"]

def disputeTypes : List String :=
  ["dispute.opened", "dispute.expired", "dispute.accepted",
   "dispute.cancelled", "dispute.challenged", "dispute.won", "dispute.lost"]

/-- All event types with a matching case in the dispatch switch. -/
def handledTypes : List String :=
  paymentTypes ++ subscriptionTypes ++
    ["refund.succeeded", "refund.failed"] ++ disputeTypes ++
    ["license_key.created"]

/-- Translation of the switch on event.type in handleWebhook (handler.ts
lines 56-120).  The result is the handler message (none for the payment
orchestrator, which returns void); a .error models a handler throw, in which
case the state is the one before the handler ran (every handler either
mutates nothing before its only failure point or catches its errors). -/
def dispatch (gpd : Option String → Except String PaymentDetails)
    (e : Event) (db : DB) : Except String (Option String) × DB :=
  if e.type ∈ paymentTypes then
    match processPaymentWebhook gpd e db with
    | .ok db1 => (.ok none, db1)
    | .error m => (.error m, db)
  else if e.type = "subscription.active" then handleSubscriptionActive e db
  else if e.type = "subscription.on_hold" then handleSubscriptionOnHold e db
  else if e.type = "subscription.renewed" then handleSubscriptionRenewed e db
  else if e.type = "subscription.plan_changed" then
    handleSubscriptionPlanChanged e db
  else if e.type = "subscription.cancelled" then
    handleSubscriptionCancelled e db
  else if e.type = "subscription.failed" then handleSubscriptionFailed e db
  else if e.type = "subscription.expired" then handleSubscriptionExpired e db
  else if e.type = "refund.succeeded" then
    (.ok (some "Refund success recorded"), db)
  else if e.type = "refund.failed" then
    (.ok (some "Refund failure recorded"), db)
  else if e.type ∈ disputeTypes then
    (.ok (some ("Dispute " ++ e.type ++ " recorded")), db)
  else if e.type = "license_key.created" then
    (.ok (some "License key creation recorded"), db)
  else (.ok (some "Event logged but not processed"), db)

structure WebhookResult where
  success : Bool
  error : Option String
  message : Option String
  deriving DecidableEq

/-- The log-dispatch-mark sequence of handleWebhook once the signature gate
has been passed and the body parsed (handler.ts lines 46-126); errors from
dispatch or markEventProcessed are caught by the outer catch and become a
success=false result. -/
def processParsedEvent (gpd : Option String → Except String PaymentDetails)
    (event : Event) (db : DB) : WebhookResult × DB :=
  let logged := logPaymentEvent
    { event_type := event.type, event_data := event,
      dodo_event_id := event.id } db
  let eventLog := logged.1
  let db1 := logged.2
  match dispatch gpd event db1 with
  | (.error m, db2) =>
    ({ success := false, error := some m, message := none }, db2)
  | (.ok msg, db2) =>
    match markEventProcessed eventLog.id db2 with
    | .error m => ({ success := false, error := some m, message := none }, db2)
    | .ok db3 => ({ success := true, error := none, message := msg }, db3)

/-- The body-processing path of handleWebhook: JSON.parse (the parse
parameter) followed by processParsedEvent; a parse failure is caught by the
outer catch and surfaces as success=false with the error message. -/
def processBody (parse : String → Except String Event)
    (gpd : Option String → Except String PaymentDetails)
    (body : String) (db : DB) : WebhookResult × DB :=
  match parse body with
  | .error m => ({ success := false, error := some m, message := none }, db)
  | .ok event => processParsedEvent gpd event db

/-- The signature gate of handleWebhook (handler.ts line 41): reject only
when the signature argument is truthy (present and non-empty) and
verification fails. -/
def signatureRejected (hmac : String → String → List Nat)
    (webhookSecret : Option String) (body : String)
    (signature : Option String) : Bool :=
  strTruthy signature &&
    !(verifyWebhookSignature hmac webhookSecret body (signature.getD ""))

/-- Translation of handleWebhook (handler.ts lines 36-135). -/
def handleWebhook (parse : String → Except String Event)
    (hmac : String → String → List Nat) (webhookSecret : Option String)
    (gpd : Option String → Except String PaymentDetails)
    (body : String) (signature : Option String) (db : DB) :
    WebhookResult × DB :=
  if signatureRejected hmac webhookSecret body signature then
    ({ success := false, error := some "Invalid signature", message := none },
     db)
  else processBody parse gpd body db

/-- Whether a payment_events row is a raw ingestion-log record (written by
logPaymentEvent) as opposed to an audit row (written by savePaymentEvent). -/
def isRawRecord (r : EventLogRecord) : Bool :=
  match r.event_data with
  | .raw _ => true
  | .audit _ _ _ _ _ _ _ _ => false

/-- Number of raw ingestion-log records in a payment_events table. -/
def countRaw (l : List EventLogRecord) : Nat :=
  (l.filter isRawRecord).length

/-! ## Concrete fixtures

Concrete instantiations of the external collaborators and small database
states, used to evaluate the pipeline on explicit inputs. -/

/-- A toy HMAC whose digest is the byte list [payload length mod 256]; it
separates the payloads used in the concrete evaluations below. -/
def hmacLen : String → String → List Nat :=
  fun _ payload => [payload.length % 256]

/-- A provider API stub whose detail call always fails. -/
def gpdFail : Option String → Except String PaymentDetails :=
  fun _ => .error "Dodo API error (500): network failure"

/-- A parser stub returning a fixed parsed event, standing for JSON.parse on
the matching body text. -/
def parseConst (e : Event) : String → Except String Event :=
  fun _ => .ok e

/-- A parser stub standing for JSON.parse throwing on a malformed body. -/
def parseBad : String → Except String Event :=
  fun _ => .error "Unexpected token o in JSON at position 1"

def emptyObject : DataObject :=
  { id := none, payment_id := none, customer := none, customer_id := none,
    product := none, price := none, status := none,
    current_period_start := none, current_period_end := none,
    cancel_at_period_end := none, amount := none, currency := none,
    failure_reason := none, metadata := none }

def emptyDB : DB :=
  { customers := [], subscriptions := [], payment_events := [],
    payments := [], nextId := 0, now := 0 }

/-- A database holding one local customer linked to provider id cus_1. -/
def custDB : DB :=
  { emptyDB with customers :=
      [{ id := "cust-1", user_id := "user-1", dodo_customer_id := "cus_1" }] }

/-- First subscription.active delivery for sub_1 / cus_1 (spec scenario 7). -/
def evActiveA : Event :=
  { id := some "evt_1", type := "subscription.active",
    data := { object := { emptyObject with
      id := some "sub_1", customer := some "cus_1", status := some "active",
      current_period_start := some 1700000000,
      current_period_end := some 1702592000 } } }

/-- Second subscription.active delivery for the same sub_1, carrying a later
period end. -/
def evActiveB : Event :=
  { id := some "evt_2", type := "subscription.active",
    data := { object := { emptyObject with
      id := some "sub_1", customer := some "cus_1", status := some "active",
      current_period_start := some 1702592000,
      current_period_end := some 1705184000 } } }

/-- A subscription.active event whose provider customer id matches nobody. -/
def evActiveUnknown : Event :=
  { id := some "evt_3", type := "subscription.active",
    data := { object := { emptyObject with
      id := some "sub_9", customer := some "cus_missing",
      current_period_start := some 1700000000,
      current_period_end := some 1702592000 } } }

/-- A subscription.on_hold event for a subscription id with no local row. -/
def evOnHold : Event :=
  { id := some "evt_4", type := "subscription.on_hold",
    data := { object := { emptyObject with id := some "sub_missing" } } }

/-- An event of a type with no dispatch case. -/
def evInvoice : Event :=
  { id := some "evt_5", type := "invoice.created",
    data := { object := emptyObject } }

/-- A payment.pending event. -/
def evPending : Event :=
  { id := some "evt_6", type := "payment.pending",
    data := { object := { emptyObject with payment_id := some "pay_1" } } }

/-- A payment.succeeded event. -/
def evPaySucceeded : Event :=
  { id := some "evt_7", type := "payment.succeeded",
    data := { object := { emptyObject with
      payment_id := some "pay_2", amount := some 700,
      currency := some "EUR" } } }

/-- A payment.failed event. -/
def evPayFailed : Event :=
  { id := some "evt_8", type := "payment.failed",
    data := { object := { emptyObject with
      payment_id := some "pay_3", amount := some 900,
      currency := some "EUR",
      failure_reason := some "card_declined" } } }

/-! ## Lemmas about hex encoding and the signature verifier -/

theorem hexVal_hexDigitChar : ∀ n : Nat, n < 16 → hexVal (hexDigitChar n) = some n := by
  decide

theorem hexEncode_cons (b : Nat) (bs : List Nat) :
    hexEncode (b :: bs) =
      hexDigitChar (b / 16) :: hexDigitChar (b % 16) :: hexEncode bs := by
  simp [hexEncode, hexEncodeByte]

theorem hexDecode_hexEncode (bs : List Nat) (h : ∀ b ∈ bs, b < 256) :
    hexDecode (hexEncode bs) = bs := by
  induction bs with
  | nil => rfl
  | cons b bs ih =>
    have hb : b < 256 := h b (List.mem_cons_self b bs)
    have h1 : b / 16 < 16 := by omega
    have h2 : b % 16 < 16 := by omega
    rw [hexEncode_cons, hexDecode, hexVal_hexDigitChar _ h1,
      hexVal_hexDigitChar _ h2]
    simp only []
    rw [ih (fun x hx => h x (List.mem_cons_of_mem _ hx))]
    congr 1
    omega

theorem hexDigitChar_ne_s : ∀ n : Nat, n < 16 → ¬(hexDigitChar n = 's') := by
  decide

theorem hexEncode_ne_s (bs : List Nat) (h : ∀ b ∈ bs, b < 256) :
    ∀ c ∈ hexEncode bs, ¬(c = 's') := by
  induction bs with
  | nil => intro c hc; simp [hexEncode] at hc
  | cons b bs ih =>
    intro c hc
    have hb : b < 256 := h b (List.mem_cons_self b bs)
    rw [hexEncode_cons] at hc
    simp only [List.mem_cons] at hc
    rcases hc with hc | hc | hc
    · exact hc ▸ hexDigitChar_ne_s _ (by omega)
    · exact hc ▸ hexDigitChar_ne_s _ (by omega)
    · exact ih (fun x hx => h x (List.mem_cons_of_mem _ hx)) c hc

theorem replaceFirst_of_no_s (l : List Char) (h : ∀ c ∈ l, ¬(c = 's')) :
    replaceFirst sha256Marker l = l := by
  induction l with
  | nil => rfl
  | cons c cs ih =>
    have hc : ¬(c = 's') := h c (List.mem_cons_self c cs)
    have hstart : listStartsWith (c :: cs) sha256Marker = false := by
      simp [sha256Marker, listStartsWith, hc]
    rw [replaceFirst, hstart]
    simp only [Bool.false_eq_true, if_false]
    rw [ih (fun x hx => h x (List.mem_cons_of_mem _ hx))]

theorem listStartsWith_append (p l : List Char) :
    listStartsWith (p ++ l) p = true := by
  induction p with
  | nil => cases l <;> rfl
  | cons c cs ih => simp [listStartsWith, ih]

theorem replaceFirst_append_self (pat l : List Char) :
    replaceFirst pat (pat ++ l) = l := by
  cases pat with
  | nil =>
    cases l with
    | nil => rfl
    | cons c cs => simp [replaceFirst, listStartsWith]
  | cons c cs =>
    have h : listStartsWith (c :: (cs ++ l)) (c :: cs) = true := by
      have := listStartsWith_append (c :: cs) l
      simpa using this
    rw [show (c :: cs) ++ l = c :: (cs ++ l) from rfl, replaceFirst, h]
    simp only [if_true]
    rw [show c :: (cs ++ l) = (c :: cs) ++ l from rfl]
    exact List.drop_left _ _

/-- C2: with a configured secret, the correct hex-encoded HMAC digest of the
body verifies (with or without the sha256= tag); the digest of a different
body (with a different digest value) is rejected; and any supplied signature
whose decoded byte length differs from the digest length makes verification
return false instead of throwing.  The digest-inequality hypothesis states
collision-freeness for the concrete pair of bodies; the byte-range
hypotheses say the HMAC parameter produces bytes. -/
theorem C2_signature_verification
    (hmac : String → String → List Nat) (S B Bp : String)
    (hB : ∀ b ∈ hmac S B, b < 256) (hBp : ∀ b ∈ hmac S Bp, b < 256)
    (hne : hmac S Bp ≠ hmac S B) :
    verifyWebhookSignature hmac (some S) B
      (String.mk (hexEncode (hmac S B))) = true
    ∧ verifyWebhookSignature hmac (some S) B
      (String.mk (sha256Marker ++ hexEncode (hmac S B))) = true
    ∧ verifyWebhookSignature hmac (some S) B
      (String.mk (hexEncode (hmac S Bp))) = false
    ∧ ∀ sig : String,
        (hexDecode (replaceFirst sha256Marker sig.data)).length ≠
          (hmac S B).length →
        verifyWebhookSignature hmac (some S) B sig = false := by
  have hdec : hexDecode (hexEncode (hmac S B)) = hmac S B :=
    hexDecode_hexEncode _ hB
  have hdecp : hexDecode (hexEncode (hmac S Bp)) = hmac S Bp :=
    hexDecode_hexEncode _ hBp
  refine ⟨?_, ?_, ?_, ?_⟩
  · show (match timingSafeEqual
        (hexDecode (replaceFirst sha256Marker (hexEncode (hmac S B))))
        (hexDecode (hexEncode (hmac S B))) with
      | some b => b | none => false) = true
    rw [replaceFirst_of_no_s _ (hexEncode_ne_s _ hB), hdec]
    simp [timingSafeEqual]
  · show (match timingSafeEqual
        (hexDecode (replaceFirst sha256Marker
          (sha256Marker ++ hexEncode (hmac S B))))
        (hexDecode (hexEncode (hmac S B))) with
      | some b => b | none => false) = true
    rw [replaceFirst_append_self, hdec]
    simp [timingSafeEqual]
  · show (match timingSafeEqual
        (hexDecode (replaceFirst sha256Marker (hexEncode (hmac S Bp))))
        (hexDecode (hexEncode (hmac S B))) with
      | some b => b | none => false) = false
    rw [replaceFirst_of_no_s _ (hexEncode_ne_s _ hBp), hdec, hdecp]
    by_cases hl : (hmac S Bp).length = (hmac S B).length
    · simp [timingSafeEqual, hl, hne]
    · simp [timingSafeEqual, hl]
  · intro sig hlen
    show (match timingSafeEqual
        (hexDecode (replaceFirst sha256Marker sig.data))
        (hexDecode (hexEncode (hmac S B))) with
      | some b => b | none => false) = false
    rw [hdec]
    simp [timingSafeEqual, hlen]

theorem C2_signature_verification_witness :
    verifyWebhookSignature hmacLen (some "k") "ab"
      (String.mk (hexEncode (hmacLen "k" "ab"))) = true
    ∧ verifyWebhookSignature hmacLen (some "k") "ab"
      (String.mk (sha256Marker ++ hexEncode (hmacLen "k" "ab"))) = true
    ∧ verifyWebhookSignature hmacLen (some "k") "ab"
      (String.mk (hexEncode (hmacLen "k" "abc"))) = false
    ∧ verifyWebhookSignature hmacLen (some "k") "ab" "zz" = false := by
  have h := C2_signature_verification hmacLen "k" "ab" "abc"
    (by decide) (by decide) (by decide)
  exact ⟨h.1, h.2.1, h.2.2.1, h.2.2.2 "zz" (by decide)⟩

/-! ## Lemmas about the event store operations -/

theorem map_mark_id_of_fresh (l : List EventLogRecord) (i now : Nat)
    (h : ∀ r ∈ l, ¬(r.id = i)) :
    l.map (fun r => if r.id == i then
      { r with processed := true, processed_at := some now } else r) = l := by
  induction l with
  | nil => rfl
  | cons a l ih =>
    have ha : (a.id == i) = false := by
      simp [h a (List.mem_cons_self a l)]
    simp only [List.map_cons, ha, Bool.false_eq_true, if_false]
    rw [ih (fun x hx => h x (List.mem_cons_of_mem _ hx))]

/-! ## C10: an absent signature skips verification entirely -/

/-- C10: when the signature argument is absent, handleWebhook never consults
the secret: the result is the same for any two configured secrets, and
equals the plain parse-log-dispatch path. -/
theorem C10_absent_signature_skips_verification
    (parse : String → Except String Event)
    (hmac : String → String → List Nat) (s1 s2 : Option String)
    (gpd : Option String → Except String PaymentDetails)
    (body : String) (db : DB) :
    handleWebhook parse hmac s1 gpd body none db
      = handleWebhook parse hmac s2 gpd body none db
    ∧ handleWebhook parse hmac s1 gpd body none db
      = processBody parse gpd body db := by
  have h : ∀ s, handleWebhook parse hmac s gpd body none db
      = processBody parse gpd body db := by
    intro s
    simp [handleWebhook, signatureRejected, strTruthy]
  exact ⟨(h s1).trans (h s2).symm, h s1⟩

/-! ## C3: rejection of invalid signatures -/

/-- C3 counterexample: the signature gate tests JavaScript truthiness, so a
present but empty signature string — which fails verification when checked —
is never checked at all: the call succeeds and writes an event row. -/
theorem C3_counterexample_empty_signature :
    verifyWebhookSignature hmacLen (some "k") "x" "" = false
    ∧ (handleWebhook (parseConst evInvoice) hmacLen (some "k") gpdFail "x"
        (some "") emptyDB).1.success = true
    ∧ (handleWebhook (parseConst evInvoice) hmacLen (some "k") gpdFail "x"
        (some "") emptyDB).2.payment_events.length = 1 := by
  decide

/-- C3 amended: for every present non-empty signature value that fails
verification, handleWebhook returns the Invalid signature failure
immediately, with no parsing (the parse parameter is never consulted), no
event store record and no state mutation of any kind. -/
theorem C3_reject_nonempty_invalid
    (parse : String → Except String Event)
    (hmac : String → String → List Nat) (secret : Option String)
    (gpd : Option String → Except String PaymentDetails)
    (body sig : String) (db : DB)
    (hs : ¬(sig = ""))
    (hv : verifyWebhookSignature hmac secret body sig = false) :
    handleWebhook parse hmac secret gpd body (some sig) db
      = ({ success := false, error := some "Invalid signature",
           message := none }, db) := by
  simp [handleWebhook, signatureRejected, strTruthy, hs, hv]

theorem C3_reject_nonempty_invalid_witness :
    handleWebhook (parseConst evInvoice) hmacLen (some "k") gpdFail "x"
      (some "bad") emptyDB
      = ({ success := false, error := some "Invalid signature",
           message := none }, emptyDB) :=
  C3_reject_nonempty_invalid (parseConst evInvoice) hmacLen (some "k")
    gpdFail "x" "bad" emptyDB (by decide) (by decide)

/-! ## C5: a parse failure precedes and prevents the event store insert -/

/-- C5: when the body fails to parse (and the signature gate passes), the
outer catch converts the parse error into a failure result and the state is
completely unchanged: the parse step strictly precedes the event store
insert. -/
theorem C5_parse_failure_no_insert
    (parse : String → Except String Event)
    (hmac : String → String → List Nat) (secret : Option String)
    (gpd : Option String → Except String PaymentDetails)
    (body : String) (sig : Option String) (db : DB) (m : String)
    (hsig : signatureRejected hmac secret body sig = false)
    (hpar : parse body = .error m) :
    handleWebhook parse hmac secret gpd body sig db
      = ({ success := false, error := some m, message := none }, db) := by
  simp [handleWebhook, hsig, processBody, hpar]

theorem C5_parse_failure_no_insert_witness :
    handleWebhook parseBad hmacLen (some "k") gpdFail "not json" none emptyDB
      = ({ success := false,
           error := some "Unexpected token o in JSON at position 1",
           message := none }, emptyDB) :=
  C5_parse_failure_no_insert parseBad hmacLen (some "k") gpdFail "not json"
    none emptyDB "Unexpected token o in JSON at position 1" (by decide) rfl

/-! ## C9: unrecognized event types are an audited no-op success -/

/-- C9: for every parsed event whose type matches no dispatch case, the call
returns success with the message Event logged but not processed, and the
final state is the initial one plus exactly one event store row for the
event, marked processed (the freshness hypothesis says the generated row id
is not already used, as the database primary key guarantees). -/
theorem C9_unhandled_type_logged_processed
    (parse : String → Except String Event)
    (hmac : String → String → List Nat) (secret : Option String)
    (gpd : Option String → Except String PaymentDetails)
    (body : String) (sig : Option String) (db : DB) (e : Event)
    (hsig : signatureRejected hmac secret body sig = false)
    (hpar : parse body = .ok e)
    (htype : e.type ∉ handledTypes)
    (hfresh : ∀ r ∈ db.payment_events, ¬(r.id = db.nextId)) :
    handleWebhook parse hmac secret gpd body sig db
      = ({ success := true, error := none,
           message := some "Event logged but not processed" },
         { db with
           payment_events := db.payment_events ++
             [{ id := db.nextId, event_type := e.type, event_data := .raw e,
                dodo_event_id := e.id, processed := true,
                processed_at := some db.now, error_message := none,
                retry_count := 0 }],
           nextId := db.nextId + 1 }) := by
  have hP : e.type ∉ paymentTypes := fun hm => htype (by
    simp only [handledTypes, List.mem_append]
    exact Or.inl (Or.inl (Or.inl (Or.inl hm))))
  have hD : e.type ∉ disputeTypes := fun hm => htype (by
    simp only [handledTypes, List.mem_append]
    exact Or.inl (Or.inr hm))
  have h1 : ¬(e.type = "subscription.active") := fun h => htype (by rw [h]; decide)
  have h2 : ¬(e.type = "subscription.on_hold") := fun h => htype (by rw [h]; decide)
  have h3 : ¬(e.type = "subscription.renewed") := fun h => htype (by rw [h]; decide)
  have h4 : ¬(e.type = "subscription.plan_changed") := fun h => htype (by rw [h]; decide)
  have h5 : ¬(e.type = "subscription.cancelled") := fun h => htype (by rw [h]; decide)
  have h6 : ¬(e.type = "subscription.failed") := fun h => htype (by rw [h]; decide)
  have h7 : ¬(e.type = "subscription.expired") := fun h => htype (by rw [h]; decide)
  have h8 : ¬(e.type = "refund.succeeded") := fun h => htype (by rw [h]; decide)
  have h9 : ¬(e.type = "refund.failed") := fun h => htype (by rw [h]; decide)
  have h10 : ¬(e.type = "license_key.created") := fun h => htype (by rw [h]; decide)
  have hdisp : ∀ d : DB, dispatch gpd e d
      = (.ok (some "Event logged but not processed"), d) := by
    intro d
    simp only [dispatch, hP, hD, h1, h2, h3, h4, h5, h6, h7, h8, h9, h10,
      if_false, ite_false]
  simp only [handleWebhook, hsig, Bool.false_eq_true, if_false,
    processBody, hpar, processParsedEvent, logPaymentEvent, hdisp]
  simp only [markEventProcessed, List.any_append, List.any_cons,
    List.any_nil, beq_self_eq_true, Bool.or_true, Bool.true_or,
    List.map_append, List.map_cons, List.map_nil, if_true]
  rw [map_mark_id_of_fresh _ _ _ hfresh]

theorem C9_unhandled_type_logged_processed_witness :
    handleWebhook (parseConst evInvoice) hmacLen none gpdFail "body" none
      emptyDB
      = ({ success := true, error := none,
           message := some "Event logged but not processed" },
         { emptyDB with
           payment_events :=
             [{ id := 0, event_type := "invoice.created",
                event_data := .raw evInvoice, dodo_event_id := some "evt_5",
                processed := true, processed_at := some 0,
                error_message := none, retry_count := 0 }],
           nextId := 1 }) := by
  have h := C9_unhandled_type_logged_processed (parseConst evInvoice) hmacLen
    none gpdFail "body" none emptyDB evInvoice (by decide) rfl (by decide)
    (by intro r hr; simp [emptyDB] at hr)
  simpa [emptyDB, evInvoice] using h

/-! ## C8: subscription.active for an unknown customer is a processed no-op -/

/-- C8: a subscription.active event whose provider customer id matches no
local customer yields the non-throwing Customer not found result, creates no
subscription record, and the event store row is still marked processed with
an overall success result. -/
theorem C8_unknown_customer_noop
    (parse : String → Except String Event)
    (hmac : String → String → List Nat) (secret : Option String)
    (gpd : Option String → Except String PaymentDetails)
    (body : String) (sig : Option String) (db : DB) (e : Event)
    (hsig : signatureRejected hmac secret body sig = false)
    (hpar : parse body = .ok e)
    (htype : e.type = "subscription.active")
    (hcust : getCustomerByDodoId e.data.object.customer db = none)
    (hfresh : ∀ r ∈ db.payment_events, ¬(r.id = db.nextId)) :
    handleWebhook parse hmac secret gpd body sig db
      = ({ success := true, error := none,
           message := some "Customer not found" },
         { db with
           payment_events := db.payment_events ++
             [{ id := db.nextId, event_type := e.type, event_data := .raw e,
                dodo_event_id := e.id, processed := true,
                processed_at := some db.now, error_message := none,
                retry_count := 0 }],
           nextId := db.nextId + 1 })
    ∧ (handleWebhook parse hmac secret gpd body sig db).2.subscriptions
        = db.subscriptions := by
  have hdisp : ∀ (pe : List EventLogRecord) (n : Nat),
      dispatch gpd e { db with payment_events := pe, nextId := n }
        = (.ok (some "Customer not found"),
           { db with payment_events := pe, nextId := n }) := by
    intro pe n
    have hc2 : getCustomerByDodoId e.data.object.customer
        { db with payment_events := pe, nextId := n } = none := by
      unfold getCustomerByDodoId at hcust ⊢
      exact hcust
    simp only [dispatch, htype]
    rw [if_neg (by decide : ¬("subscription.active" ∈ paymentTypes))]
    simp [handleSubscriptionActive, hc2]
  have hmain : handleWebhook parse hmac secret gpd body sig db
      = ({ success := true, error := none,
           message := some "Customer not found" },
         { db with
           payment_events := db.payment_events ++
             [{ id := db.nextId, event_type := e.type, event_data := .raw e,
                dodo_event_id := e.id, processed := true,
                processed_at := some db.now, error_message := none,
                retry_count := 0 }],
           nextId := db.nextId + 1 }) := by
    simp only [handleWebhook, hsig, Bool.false_eq_true, if_false,
      processBody, hpar, processParsedEvent, logPaymentEvent]
    rw [hdisp]
    simp only [markEventProcessed, List.any_append, List.any_cons,
      List.any_nil, beq_self_eq_true, Bool.or_true, Bool.true_or,
      List.map_append, List.map_cons, List.map_nil, if_true]
    rw [map_mark_id_of_fresh _ _ _ hfresh]
  exact ⟨hmain, by rw [hmain]⟩

theorem C8_unknown_customer_noop_witness :
    handleWebhook (parseConst evActiveUnknown) hmacLen none gpdFail "body"
      none custDB
      = ({ success := true, error := none,
           message := some "Customer not found" },
         { custDB with
           payment_events :=
             [{ id := 0, event_type := "subscription.active",
                event_data := .raw evActiveUnknown,
                dodo_event_id := some "evt_3", processed := true,
                processed_at := some 0, error_message := none,
                retry_count := 0 }],
           nextId := 1 })
    ∧ (handleWebhook (parseConst evActiveUnknown) hmacLen none gpdFail "body"
        none custDB).2.subscriptions = custDB.subscriptions := by
  have h := C8_unknown_customer_noop (parseConst evActiveUnknown) hmacLen
    none gpdFail "body" none custDB evActiveUnknown (by decide) rfl rfl
    (by decide) (by intro r hr; simp [custDB, emptyDB] at hr)
  exact ⟨by simpa [custDB, emptyDB, evActiveUnknown] using h.1, h.2⟩

/-! ## C6: a handler throw aborts processing and leaves the row unprocessed

Every handler either catches its errors or fails before mutating anything,
so a dispatch error leaves the state exactly as it was after logging. -/

theorem handleSubscriptionActive_error (e : Event) (d : DB) (m : String)
    (h : (handleSubscriptionActive e d).1 = .error m) :
    (handleSubscriptionActive e d).2 = d := by
  unfold handleSubscriptionActive at h ⊢
  cases hc : getCustomerByDodoId e.data.object.customer d with
  | none => simp [hc] at h
  | some c =>
    cases hs : toISOms e.data.object.current_period_start with
    | error m1 => simp [hc, hs] at h
    | ok ps =>
      cases he : toISOms e.data.object.current_period_end with
      | error m2 => simp [hc, hs, he] at h
      | ok pe =>
        simp only [hc, hs, he] at h ⊢
        cases hsv : saveSubscription
            { user_id := c.user_id, customer_id := c.id,
              dodo_subscription_id := e.data.object.id,
              product_id := e.data.object.product.getD "",
              price_id := e.data.object.price.getD "",
              status := "active", current_period_start := ps,
              current_period_end := pe,
              cancel_at_period_end :=
                e.data.object.cancel_at_period_end.getD false,
              metadata := e.data.object.metadata.getD [] } d with
        | ok d1 => simp [hsv] at h
        | error m3 => simp [hsv] at h

theorem handleSubscriptionOnHold_error (e : Event) (d : DB) (m : String)
    (h : (handleSubscriptionOnHold e d).1 = .error m) :
    (handleSubscriptionOnHold e d).2 = d := by
  unfold handleSubscriptionOnHold at h ⊢
  cases hu : updateSubscription e.data.object.id
      { status := some "on_hold", current_period_start := none,
        current_period_end := none, cancel_at_period_end := none,
        metadata := none } d with
  | ok d1 => simp [hu] at h
  | error m1 => simp [hu]

theorem handleSubscriptionRenewed_error (e : Event) (d : DB) (m : String)
    (h : (handleSubscriptionRenewed e d).1 = .error m) :
    (handleSubscriptionRenewed e d).2 = d := by
  unfold handleSubscriptionRenewed at h ⊢
  cases hs : toISOms e.data.object.current_period_start with
  | error m1 => simp [hs]
  | ok ps =>
    cases he : toISOms e.data.object.current_period_end with
    | error m2 => simp [hs, he]
    | ok pe =>
      simp only [hs, he] at h ⊢
      cases hu : updateSubscription e.data.object.id
          { status := some "active", current_period_start := some ps,
            current_period_end := some pe, cancel_at_period_end := none,
            metadata := none } d with
      | ok d1 => simp [hu] at h
      | error m1 => simp [hu]

theorem handleSubscriptionPlanChanged_error (e : Event) (d : DB) (m : String)
    (h : (handleSubscriptionPlanChanged e d).1 = .error m) :
    (handleSubscriptionPlanChanged e d).2 = d := by
  unfold handleSubscriptionPlanChanged at h ⊢
  cases hu : updateSubscription e.data.object.id
      { status := e.data.object.status, current_period_start := none,
        current_period_end := none, cancel_at_period_end := none,
        metadata := some (e.data.object.metadata.getD []) } d with
  | ok d1 => simp [hu] at h
  | error m1 => simp [hu]

theorem handleSubscriptionCancelled_error (e : Event) (d : DB) (m : String)
    (h : (handleSubscriptionCancelled e d).1 = .error m) :
    (handleSubscriptionCancelled e d).2 = d := by
  unfold handleSubscriptionCancelled at h ⊢
  cases hu : updateSubscription e.data.object.id
      { status := some "cancelled", current_period_start := none,
        current_period_end := none, cancel_at_period_end := some true,
        metadata := none } d with
  | ok d1 => simp [hu] at h
  | error m1 => simp [hu]

theorem handleSubscriptionFailed_error (e : Event) (d : DB) (m : String)
    (h : (handleSubscriptionFailed e d).1 = .error m) :
    (handleSubscriptionFailed e d).2 = d := by
  unfold handleSubscriptionFailed at h ⊢
  cases hu : updateSubscription e.data.object.id
      { status := some "failed", current_period_start := none,
        current_period_end := none, cancel_at_period_end := none,
        metadata := none } d with
  | ok d1 => simp [hu] at h
  | error m1 => simp [hu]

theorem handleSubscriptionExpired_error (e : Event) (d : DB) (m : String)
    (h : (handleSubscriptionExpired e d).1 = .error m) :
    (handleSubscriptionExpired e d).2 = d := by
  unfold handleSubscriptionExpired at h ⊢
  cases hu : updateSubscription e.data.object.id
      { status := some "expired", current_period_start := none,
        current_period_end := none, cancel_at_period_end := none,
        metadata := none } d with
  | ok d1 => simp [hu] at h
  | error m1 => simp [hu]

/-- When dispatch reports a handler throw, the state it returns is exactly
the state it was given: no handler mutates anything before its failure
point. -/
theorem dispatch_error_state
    (gpd : Option String → Except String PaymentDetails) (e : Event)
    (d : DB) (m : String)
    (h : (dispatch gpd e d).1 = .error m) : (dispatch gpd e d).2 = d := by
  by_cases h1 : e.type ∈ paymentTypes
  · simp only [dispatch, if_pos h1] at h ⊢
    cases hres : processPaymentWebhook gpd e d with
    | ok d1 => simp [hres] at h
    | error m1 => simp [hres]
  · simp only [dispatch, if_neg h1] at h ⊢
    by_cases h2 : e.type = "subscription.active"
    · simp only [if_pos h2] at h ⊢
      exact handleSubscriptionActive_error e d m h
    · simp only [if_neg h2] at h ⊢
      by_cases h3 : e.type = "subscription.on_hold"
      · simp only [if_pos h3] at h ⊢
        exact handleSubscriptionOnHold_error e d m h
      · simp only [if_neg h3] at h ⊢
        by_cases h4 : e.type = "subscription.renewed"
        · simp only [if_pos h4] at h ⊢
          exact handleSubscriptionRenewed_error e d m h
        · simp only [if_neg h4] at h ⊢
          by_cases h5 : e.type = "subscription.plan_changed"
          · simp only [if_pos h5] at h ⊢
            exact handleSubscriptionPlanChanged_error e d m h
          · simp only [if_neg h5] at h ⊢
            by_cases h6 : e.type = "subscription.cancelled"
            · simp only [if_pos h6] at h ⊢
              exact handleSubscriptionCancelled_error e d m h
            · simp only [if_neg h6] at h ⊢
              by_cases h7 : e.type = "subscription.failed"
              · simp only [if_pos h7] at h ⊢
                exact handleSubscriptionFailed_error e d m h
              · simp only [if_neg h7] at h ⊢
                by_cases h8 : e.type = "subscription.expired"
                · simp only [if_pos h8] at h ⊢
                  exact handleSubscriptionExpired_error e d m h
                · simp only [if_neg h8] at h ⊢
                  by_cases h9 : e.type = "refund.succeeded"
                  · simp only [if_pos h9] at h ⊢
                  · simp only [if_neg h9] at h ⊢
                    by_cases h10 : e.type = "refund.failed"
                    · simp only [if_pos h10] at h ⊢
                    · simp only [if_neg h10] at h ⊢
                      by_cases h11 : e.type ∈ disputeTypes
                      · simp only [if_pos h11] at h ⊢
                      · simp only [if_neg h11] at h ⊢
                        by_cases h12 : e.type = "license_key.created"
                        · simp only [if_pos h12] at h ⊢
                        · simp only [if_neg h12] at h ⊢

/-- C6: when the dispatched handler throws (for instance a subscription
update failure in the on_hold handler, which has no local catch), the call
returns a top-level failure carrying the error message, and the final state
is exactly the post-logging state: the inserted event row keeps
processed=false and retry_count=0, and markEventProcessed never runs. -/
theorem C6_handler_throw_leaves_unprocessed
    (parse : String → Except String Event)
    (hmac : String → String → List Nat) (secret : Option String)
    (gpd : Option String → Except String PaymentDetails)
    (body : String) (sig : Option String) (db : DB) (e : Event) (m : String)
    (hsig : signatureRejected hmac secret body sig = false)
    (hpar : parse body = .ok e)
    (hd : (dispatch gpd e
      { db with
        payment_events := db.payment_events ++
          [{ id := db.nextId, event_type := e.type, event_data := .raw e,
             dodo_event_id := e.id, processed := false, processed_at := none,
             error_message := none, retry_count := 0 }],
        nextId := db.nextId + 1 }).1 = .error m) :
    handleWebhook parse hmac secret gpd body sig db
      = ({ success := false, error := some m, message := none },
         { db with
           payment_events := db.payment_events ++
             [{ id := db.nextId, event_type := e.type, event_data := .raw e,
                dodo_event_id := e.id, processed := false,
                processed_at := none, error_message := none,
                retry_count := 0 }],
           nextId := db.nextId + 1 }) := by
  have hst := dispatch_error_state gpd e _ m hd
  rcases hdp : dispatch gpd e
      { db with
        payment_events := db.payment_events ++
          [{ id := db.nextId, event_type := e.type, event_data := .raw e,
             dodo_event_id := e.id, processed := false, processed_at := none,
             error_message := none, retry_count := 0 }],
        nextId := db.nextId + 1 } with ⟨f, s⟩
  rw [hdp] at hd hst
  simp only at hd hst
  subst hd
  subst hst
  simp only [handleWebhook, hsig, Bool.false_eq_true, if_false,
    processBody, hpar, processParsedEvent, logPaymentEvent, hdp]

theorem C6_handler_throw_leaves_unprocessed_witness :
    handleWebhook (parseConst evOnHold) hmacLen none gpdFail "body" none
      emptyDB
      = ({ success := false,
           error := some "Failed to update subscription: JSON object requested, multiple (or no) rows returned",
           message := none },
         { emptyDB with
           payment_events :=
             [{ id := 0, event_type := "subscription.on_hold",
                event_data := .raw evOnHold, dodo_event_id := some "evt_4",
                processed := false, processed_at := none,
                error_message := none, retry_count := 0 }],
           nextId := 1 }) := by
  have h := C6_handler_throw_leaves_unprocessed (parseConst evOnHold) hmacLen
    none gpdFail "body" none emptyDB evOnHold
    "Failed to update subscription: JSON object requested, multiple (or no) rows returned"
    (by decide) rfl rfl
  simpa [emptyDB, evOnHold] using h

/-! ## C7: enrichment-failure asymmetry between payment branches -/

theorem handlePaymentFailure_enrichment_tolerant
    (gpd : Option String → Except String PaymentDetails)
    (ed : PaymentEventData) (db : DB) (mf p : String)
    (hpid : ed.payment_id = some p)
    (hgf : gpd (some p) = .error mf) :
    ∃ dbp, handlePaymentFailure gpd ed db = .ok dbp
      ∧ dbp.payments.any
          (fun q => q.dodo_payment_id == p && q.status == "failed") = true
      ∧ ∃ r, dbp.payment_events = db.payment_events ++ [r]
          ∧ r.event_type = "payment.failed" ∧ r.processed = true := by
  unfold handlePaymentFailure
  rw [hpid, hgf]
  by_cases hex : db.payments.any (fun q => some q.dodo_payment_id == some p)
  · simp only [updatePaymentStatus, hpid, hex, if_true]
    refine ⟨_, rfl, ?_, ?_⟩
    · obtain ⟨q, hqmem, hq⟩ := List.any_eq_true.mp hex
      have hqd : q.dodo_payment_id = p := by
        simpa using hq
      refine List.any_eq_true.mpr ⟨_, List.mem_map.mpr ⟨q, hqmem, rfl⟩, ?_⟩
      rw [if_pos (by simp [hqd])]
      simp [hqd]
    · exact ⟨_, rfl, rfl, rfl⟩
  · simp only [updatePaymentStatus, hpid, hex, if_false]
    refine ⟨_, rfl, ?_, ?_⟩
    · refine List.any_eq_true.mpr ⟨_, List.mem_append_right _ (List.mem_singleton.mpr rfl), ?_⟩
      simp
    · exact ⟨_, rfl, rfl, rfl⟩

/-- C7: for succeeded and completed payment events a failure of the
provider-API enrichment call propagates out of the handler untouched; for
failed and declined events the same failure is swallowed and processing
continues on event-supplied data, still upserting the payment to status
failed and appending the audit row. -/
theorem C7_enrichment_asymmetry
    (gpd : Option String → Except String PaymentDetails)
    (e ef : Event) (db dbf : DB) (m mf p : String)
    (hs : e.type = "payment.succeeded" ∨ e.type = "payment.completed")
    (hgs : gpd (jsStrOr e.data.object.payment_id e.data.object.id)
      = .error m)
    (hf : ef.type = "payment.failed" ∨ ef.type = "payment.declined")
    (hpid : jsStrOr ef.data.object.payment_id ef.data.object.id = some p)
    (hgf : gpd (some p) = .error mf) :
    processPaymentWebhook gpd e db = .error m
    ∧ ∃ dbp, processPaymentWebhook gpd ef dbf = .ok dbp
        ∧ dbp.payments.any
            (fun q => q.dodo_payment_id == p && q.status == "failed") = true
        ∧ ∃ r, dbp.payment_events = dbf.payment_events ++ [r]
            ∧ r.event_type = "payment.failed" ∧ r.processed = true := by
  constructor
  · unfold processPaymentWebhook handlePaymentSuccess
    rcases hs with hs | hs <;> rw [hs] <;> simp [hgs]
  · have hbranch : processPaymentWebhook gpd ef dbf
        = handlePaymentFailure gpd
          { payment_id := jsStrOr ef.data.object.payment_id
              ef.data.object.id,
            status := ef.data.object.status,
            amount := ef.data.object.amount,
            currency := ef.data.object.currency,
            customer_id := ef.data.object.customer_id,
            failure_reason := ef.data.object.failure_reason,
            metadata := ef.data.object.metadata.getD [] } dbf := by
      unfold processPaymentWebhook
      rcases hf with hf | hf <;> rw [hf] <;> simp
    rw [hbranch]
    exact handlePaymentFailure_enrichment_tolerant gpd _ dbf mf p hpid hgf

theorem C7_enrichment_asymmetry_witness :
    processPaymentWebhook gpdFail evPaySucceeded emptyDB
      = .error "Dodo API error (500): network failure"
    ∧ ∃ dbp, processPaymentWebhook gpdFail evPayFailed emptyDB = .ok dbp
        ∧ dbp.payments.any
            (fun q => q.dodo_payment_id == "pay_3" && q.status == "failed")
          = true
        ∧ ∃ r, dbp.payment_events = emptyDB.payment_events ++ [r]
            ∧ r.event_type = "payment.failed" ∧ r.processed = true :=
  C7_enrichment_asymmetry gpdFail evPaySucceeded evPayFailed emptyDB emptyDB
    "Dodo API error (500): network failure"
    "Dodo API error (500): network failure" "pay_3"
    (Or.inl rfl) rfl (Or.inl rfl) (by decide) rfl

/-! ## C4: counting event store inserts -/

theorem countRaw_append (a b : List EventLogRecord) :
    countRaw (a ++ b) = countRaw a + countRaw b := by
  simp [countRaw, List.filter_append]

theorem countRaw_map_mark (l : List EventLogRecord) (i now : Nat) :
    countRaw (l.map (fun r => if r.id == i then
      { r with processed := true, processed_at := some now } else r))
      = countRaw l := by
  induction l with
  | nil => rfl
  | cons a l ih =>
    have hiso : isRawRecord ((fun r => if r.id == i then
        { r with processed := true, processed_at := some now } else r) a)
        = isRawRecord a := by
      by_cases ha : (a.id == i) = true
      · simp only [ha, if_true]
        rfl
      · simp only [Bool.not_eq_true] at ha
        simp [ha]
    simp only [List.map_cons, countRaw, List.filter_cons, hiso]
    cases hr : isRawRecord a
    · simpa [countRaw] using ih
    · simpa [countRaw] using ih

theorem updateSubscription_payment_events
    (k : Option String) (u : SubscriptionUpdates) (d d1 : DB)
    (h : updateSubscription k u d = .ok d1) :
    d1.payment_events = d.payment_events := by
  unfold updateSubscription at h
  split at h
  · simp only [Except.ok.injEq] at h
    subst h
    rfl
  · simp at h

theorem saveSubscription_payment_events
    (s : SubscriptionInsert) (d d1 : DB)
    (h : saveSubscription s d = .ok d1) :
    d1.payment_events = d.payment_events := by
  unfold saveSubscription at h
  split at h
  · simp at h
  · split at h
    · simp at h
    · simp only [Except.ok.injEq] at h
      subst h
      rfl

theorem updatePaymentStatus_payment_events
    (pid : Option String) (st : String) (d d1 : DB)
    (h : updatePaymentStatus pid st d = .ok d1) :
    d1.payment_events = d.payment_events := by
  unfold updatePaymentStatus at h
  split at h
  · simp only [Except.ok.injEq] at h
    subst h
    rfl
  · split at h
    · simp only [Except.ok.injEq] at h
      subst h
      rfl
    · simp at h

theorem handleSubscriptionActive_payment_events (e : Event) (d : DB) :
    (handleSubscriptionActive e d).2.payment_events = d.payment_events := by
  unfold handleSubscriptionActive
  cases hc : getCustomerByDodoId e.data.object.customer d with
  | none => simp [hc]
  | some c =>
    cases hs : toISOms e.data.object.current_period_start with
    | error m1 => simp [hc, hs]
    | ok ps =>
      cases he : toISOms e.data.object.current_period_end with
      | error m2 => simp [hc, hs, he]
      | ok pe =>
        simp only [hc, hs, he]
        cases hsv : saveSubscription
            { user_id := c.user_id, customer_id := c.id,
              dodo_subscription_id := e.data.object.id,
              product_id := e.data.object.product.getD "",
              price_id := e.data.object.price.getD "",
              status := "active", current_period_start := ps,
              current_period_end := pe,
              cancel_at_period_end :=
                e.data.object.cancel_at_period_end.getD false,
              metadata := e.data.object.metadata.getD [] } d with
        | ok d1 => simpa [hsv] using saveSubscription_payment_events _ _ _ hsv
        | error m3 => simp [hsv]

theorem subscriptionUpdateHandler_payment_events
    (k : Option String) (u : SubscriptionUpdates) (d : DB) (msg : String) :
    ((match updateSubscription k u d with
      | .ok d1 => ((.ok (some msg) : Except String (Option String)), d1)
      | .error m => (.error m, d)) : Except String (Option String) × DB).2.payment_events
      = d.payment_events := by
  cases hu : updateSubscription k u d with
  | ok d1 => simpa using updateSubscription_payment_events _ _ _ _ hu
  | error m => simp

theorem savePaymentEvent_payment_events (x : PaymentEventInput) (d : DB) :
    ∃ r, (savePaymentEvent x d).payment_events = d.payment_events ++ [r]
      ∧ isRawRecord r = false :=
  ⟨_, rfl, rfl⟩

theorem handlePaymentSuccess_ok_payment_events
    (gpd : Option String → Except String PaymentDetails)
    (ed : PaymentEventData) (d d1 : DB)
    (h : handlePaymentSuccess gpd ed d = .ok d1) :
    ∃ r, d1.payment_events = d.payment_events ++ [r]
      ∧ isRawRecord r = false := by
  unfold handlePaymentSuccess at h
  cases hg : gpd ed.payment_id with
  | error m => rw [hg] at h; simp at h
  | ok pd =>
    rw [hg] at h
    simp only [] at h
    cases hup : updatePaymentStatus ed.payment_id "succeeded" d with
    | error m => rw [hup] at h; simp at h
    | ok d2 =>
      rw [hup] at h
      simp only [Except.ok.injEq] at h
      subst h
      rw [show d.payment_events = d2.payment_events from
        (updatePaymentStatus_payment_events _ _ _ _ hup).symm]
      exact savePaymentEvent_payment_events _ d2

theorem handlePaymentFailure_ok_payment_events
    (gpd : Option String → Except String PaymentDetails)
    (ed : PaymentEventData) (d d1 : DB)
    (h : handlePaymentFailure gpd ed d = .ok d1) :
    ∃ r, d1.payment_events = d.payment_events ++ [r]
      ∧ isRawRecord r = false := by
  unfold handlePaymentFailure at h
  cases hup : updatePaymentStatus ed.payment_id "failed" d with
  | error m => rw [hup] at h; simp at h
  | ok d2 =>
    rw [hup] at h
    simp only [Except.ok.injEq] at h
    subst h
    rw [show d.payment_events = d2.payment_events from
      (updatePaymentStatus_payment_events _ _ _ _ hup).symm]
    exact savePaymentEvent_payment_events _ d2

theorem handlePaymentStatusUpdate_ok_payment_events
    (ed : PaymentEventData) (d d1 : DB)
    (h : handlePaymentStatusUpdate ed d = .ok d1) :
    ∃ r, d1.payment_events = d.payment_events ++ [r]
      ∧ isRawRecord r = false := by
  unfold handlePaymentStatusUpdate at h
  cases hup : updatePaymentStatus ed.payment_id (ed.status.getD "") d with
  | error m => simp [hup] at h
  | ok d2 =>
    simp only [hup, Except.ok.injEq] at h
    subst h
    rw [show d.payment_events = d2.payment_events from
      (updatePaymentStatus_payment_events _ _ _ _ hup).symm]
    exact savePaymentEvent_payment_events _ d2

theorem processPaymentWebhook_ok_payment_events
    (gpd : Option String → Except String PaymentDetails) (e : Event)
    (d d1 : DB) (h : processPaymentWebhook gpd e d = .ok d1) :
    ∃ r, d1.payment_events = d.payment_events ++ [r]
      ∧ isRawRecord r = false := by
  unfold processPaymentWebhook at h
  split at h
  · exact handlePaymentSuccess_ok_payment_events _ _ _ _ h
  · split at h
    · exact handlePaymentFailure_ok_payment_events _ _ _ _ h
    · split at h
      · exact handlePaymentStatusUpdate_ok_payment_events _ _ _ h
      · split at h
        · exact handlePaymentStatusUpdate_ok_payment_events _ _ _ h
        · simp only [Except.ok.injEq] at h
          subst h
          exact ⟨_, rfl, rfl⟩

/-- The dispatch step only ever appends audit rows to payment_events, and
appends nothing at all for non-payment event types. -/
theorem dispatch_payment_events
    (gpd : Option String → Except String PaymentDetails) (e : Event)
    (d : DB) :
    ∃ ext, (dispatch gpd e d).2.payment_events = d.payment_events ++ ext
      ∧ countRaw ext = 0
      ∧ (e.type ∉ paymentTypes → ext = []) := by
  by_cases h1 : e.type ∈ paymentTypes
  · simp only [dispatch, if_pos h1]
    cases hres : processPaymentWebhook gpd e d with
    | ok d1 =>
      obtain ⟨r, hr, hraw⟩ :=
        processPaymentWebhook_ok_payment_events _ _ _ _ hres
      exact ⟨[r], by simpa using hr, by simp [countRaw, hraw],
        fun hn => absurd h1 hn⟩
    | error m => exact ⟨[], by simp, rfl, fun _ => rfl⟩
  · refine ⟨[], ?_, rfl, fun _ => rfl⟩
    simp only [dispatch, if_neg h1, List.append_nil]
    by_cases h2 : e.type = "subscription.active"
    · simp only [if_pos h2]
      exact handleSubscriptionActive_payment_events e d
    · simp only [if_neg h2]
      by_cases h3 : e.type = "subscription.on_hold"
      · simp only [if_pos h3]
        exact subscriptionUpdateHandler_payment_events _ _ _ _
      · simp only [if_neg h3]
        by_cases h4 : e.type = "subscription.renewed"
        · simp only [if_pos h4]
          unfold handleSubscriptionRenewed
          cases hs : toISOms e.data.object.current_period_start with
          | error m1 => simp [hs]
          | ok ps =>
            cases he : toISOms e.data.object.current_period_end with
            | error m2 => simp [hs, he]
            | ok pe =>
              simp only [hs, he]
              exact subscriptionUpdateHandler_payment_events _ _ _ _
        · simp only [if_neg h4]
          by_cases h5 : e.type = "subscription.plan_changed"
          · simp only [if_pos h5]
            exact subscriptionUpdateHandler_payment_events _ _ _ _
          · simp only [if_neg h5]
            by_cases h6 : e.type = "subscription.cancelled"
            · simp only [if_pos h6]
              exact subscriptionUpdateHandler_payment_events _ _ _ _
            · simp only [if_neg h6]
              by_cases h7 : e.type = "subscription.failed"
              · simp only [if_pos h7]
                exact subscriptionUpdateHandler_payment_events _ _ _ _
              · simp only [if_neg h7]
                by_cases h8 : e.type = "subscription.expired"
                · simp only [if_pos h8]
                  exact subscriptionUpdateHandler_payment_events _ _ _ _
                · simp only [if_neg h8]
                  by_cases h9 : e.type = "refund.succeeded"
                  · simp only [if_pos h9]
                  · simp only [if_neg h9]
                    by_cases h10 : e.type = "refund.failed"
                    · simp only [if_pos h10]
                    · simp only [if_neg h10]
                      by_cases h11 : e.type ∈ disputeTypes
                      · simp only [if_pos h11]
                      · simp only [if_neg h11]
                        by_cases h12 : e.type = "license_key.created"
                        · simp only [if_pos h12]
                        · simp only [if_neg h12]

/-- C4 counterexample: a payment.pending call with a valid body performs TWO
inserts into the payment_events table, not one — the ingestion log row plus
the audit row written by savePaymentEvent through the payment handler. -/
theorem C4_counterexample_payment_audit_rows :
    (handleWebhook (parseConst evPending) hmacLen none gpdFail "body" none
      emptyDB).2.payment_events.length = 2
    ∧ ¬((handleWebhook (parseConst evPending) hmacLen none gpdFail "body"
        none emptyDB).2.payment_events.length
          = emptyDB.payment_events.length + 1) := by
  decide

/-- C4 amended: every call with a parseable body (and passing signature
gate) performs exactly one insert of the raw event into the event store;
event types outside the payment family insert nothing else, so the table
grows by exactly one row for them (payment types may additionally append
one audit row, as the counterexample shows). -/
theorem C4_one_raw_insert
    (parse : String → Except String Event)
    (hmac : String → String → List Nat) (secret : Option String)
    (gpd : Option String → Except String PaymentDetails)
    (body : String) (sig : Option String) (db : DB) (e : Event)
    (hsig : signatureRejected hmac secret body sig = false)
    (hpar : parse body = .ok e) :
    countRaw (handleWebhook parse hmac secret gpd body sig db).2.payment_events
      = countRaw db.payment_events + 1
    ∧ (e.type ∉ paymentTypes →
        (handleWebhook parse hmac secret gpd body sig
          db).2.payment_events.length
          = db.payment_events.length + 1) := by
  obtain ⟨ext, hext, hcr, hnil⟩ := dispatch_payment_events gpd e
    { db with
      payment_events := db.payment_events ++
        [{ id := db.nextId, event_type := e.type, event_data := .raw e,
           dodo_event_id := e.id, processed := false, processed_at := none,
           error_message := none, retry_count := 0 }],
      nextId := db.nextId + 1 }
  rcases hdp : dispatch gpd e
      { db with
        payment_events := db.payment_events ++
          [{ id := db.nextId, event_type := e.type, event_data := .raw e,
             dodo_event_id := e.id, processed := false, processed_at := none,
             error_message := none, retry_count := 0 }],
        nextId := db.nextId + 1 } with ⟨res, db2⟩
  rw [hdp] at hext
  simp only at hext
  have hraw1 : countRaw
      [({ id := db.nextId, event_type := e.type, event_data := .raw e,
          dodo_event_id := e.id, processed := false, processed_at := none,
          error_message := none,
          retry_count := 0 } : EventLogRecord)] = 1 := rfl
  cases res with
  | error m =>
    simp only [handleWebhook, hsig, Bool.false_eq_true, if_false,
      processBody, hpar, processParsedEvent, logPaymentEvent, hdp]
    constructor
    · rw [hext, List.append_assoc, countRaw_append, countRaw_append,
        hraw1, hcr]
    · intro hP
      rw [hext, hnil hP]
      simp
  | ok msg =>
    have hany : db2.payment_events.any (fun r => r.id == db.nextId)
        = true := by
      rw [hext]
      simp
    simp only [handleWebhook, hsig, Bool.false_eq_true, if_false,
      processBody, hpar, processParsedEvent, logPaymentEvent, hdp,
      markEventProcessed, hany, if_true]
    constructor
    · rw [countRaw_map_mark, hext, List.append_assoc, countRaw_append,
        countRaw_append, hraw1, hcr]
    · intro hP
      rw [List.length_map, hext, hnil hP]
      simp

theorem C4_one_raw_insert_witness :
    countRaw (handleWebhook (parseConst evInvoice) hmacLen none gpdFail
      "body" none emptyDB).2.payment_events
      = countRaw emptyDB.payment_events + 1
    ∧ ("invoice.created" ∉ paymentTypes →
        (handleWebhook (parseConst evInvoice) hmacLen none gpdFail "body"
          none emptyDB).2.payment_events.length
          = emptyDB.payment_events.length + 1) :=
  C4_one_raw_insert (parseConst evInvoice) hmacLen none gpdFail "body" none
    emptyDB evInvoice (by decide) rfl

/-! ## C1: subscription.active delivered twice for the same provider id

saveSubscription is a bare insert while its caller says save-or-update and
the schema makes dodo_subscription_id unique: the second delivery hits the
unique constraint, the throw is swallowed by the handler catch, and the
stored row is never updated. -/

/-- C1: evaluating the pipeline on two subscription.active events for the
same provider subscription id sub_1 (the second carrying a later period
end): the first call saves the subscription; the second call leaves exactly
one row — but only because the insert fails on the unique constraint: the
handler reports the swallowed error instead of updating, and the stored row
keeps the stale period end of the first event. -/
theorem C1_insert_only_not_upsert :
    (handleWebhook (parseConst evActiveA) hmacLen none gpdFail "body1" none
      custDB).1
      = { success := true, error := none,
          message := some "Subscription activated and saved" }
    ∧ (handleWebhook (parseConst evActiveA) hmacLen none gpdFail "body1"
        none custDB).2.subscriptions.length = 1
    ∧ (handleWebhook (parseConst evActiveB) hmacLen none gpdFail "body2"
        none
        (handleWebhook (parseConst evActiveA) hmacLen none gpdFail "body1"
          none custDB).2).1
      = { success := true, error := none,
          message := some "Error processing subscription activation" }
    ∧ (handleWebhook (parseConst evActiveB) hmacLen none gpdFail "body2"
        none
        (handleWebhook (parseConst evActiveA) hmacLen none gpdFail "body1"
          none custDB).2).2.subscriptions
      = (handleWebhook (parseConst evActiveA) hmacLen none gpdFail "body1"
          none custDB).2.subscriptions
    ∧ (handleWebhook (parseConst evActiveB) hmacLen none gpdFail "body2"
        none
        (handleWebhook (parseConst evActiveA) hmacLen none gpdFail "body1"
          none custDB).2).2.subscriptions.map
          (fun s => s.current_period_end)
      = [1702592000 * 1000] := by
  decide

end Dodo
